import Mathlib

/-!
# NetMind core — shallow embedding and verification

Shallow embedding of the NetMind relay/observability core
(`src/netmind/protocols.py`, `src/netmind/core.py`, `src/netmind/app.py`)
and proofs of the frozen claims about it.

Conventions:
* a byte string (Python `bytes`) is a `List Nat`, each element `< 256`;
* Python `str` values manipulated character-wise are `List Char`
  (a Python string is a sequence of Unicode code points), converted to
  Lean `String` at output boundaries;
* Python functions that can raise are modelled with result types carrying
  the state at return/raise time;
* `asyncio` scheduling is irrelevant to the claims: each claimed operation
  is a single sequential state transformation in the source, embedded as a
  pure function on an explicit state.
-/

namespace Netmind

/-! ## Bytes and UTF-8 (model of Python `bytes.decode("utf-8")`)

`utf8Step` parses one Unicode scalar value from the front of a byte list,
rejecting overlong forms, surrogates and values above U+10FFFF, exactly as
Python's strict UTF-8 codec does.  Every successful step consumes at least
one byte, so running it `bs.length` times suffices to consume `bs`; the
fuel argument of `utf8DecodeAux` only makes termination structural. -/

/-- Is `b` a UTF-8 continuation byte (`0x80..0xbf`)? -/
def contB (b : Nat) : Bool := 0x80 ≤ b && b ≤ 0xbf

/-- Parse one Unicode scalar from the front of a byte list (strict UTF-8).
Returns the character and the remaining bytes, or `none` on invalid input. -/
def utf8Step : List Nat → Option (Char × List Nat)
  | [] => none
  | b :: rest =>
    if b < 0x80 then some (Char.ofNat b, rest)
    else if 0xc2 ≤ b && b ≤ 0xdf then
      match rest with
      | c1 :: r =>
        if contB c1 then some (Char.ofNat ((b - 0xc0) * 0x40 + (c1 - 0x80)), r) else none
      | [] => none
    else if b = 0xe0 then
      match rest with
      | c1 :: c2 :: r =>
        if (0xa0 ≤ c1 && c1 ≤ 0xbf) && contB c2 then
          some (Char.ofNat ((c1 - 0x80) * 0x40 + (c2 - 0x80)), r)
        else none
      | _ => none
    else if (0xe1 ≤ b && b ≤ 0xec) || b = 0xee || b = 0xef then
      match rest with
      | c1 :: c2 :: r =>
        if contB c1 && contB c2 then
          some (Char.ofNat (((b - 0xe0) * 0x1000) + (c1 - 0x80) * 0x40 + (c2 - 0x80)), r)
        else none
      | _ => none
    else if b = 0xed then
      match rest with
      | c1 :: c2 :: r =>
        if (0x80 ≤ c1 && c1 ≤ 0x9f) && contB c2 then
          some (Char.ofNat (0xd000 + (c1 - 0x80) * 0x40 + (c2 - 0x80)), r)
        else none
      | _ => none
    else if b = 0xf0 then
      match rest with
      | c1 :: c2 :: c3 :: r =>
        if (0x90 ≤ c1 && c1 ≤ 0xbf) && contB c2 && contB c3 then
          some (Char.ofNat ((c1 - 0x80) * 0x1000 + (c2 - 0x80) * 0x40 + (c3 - 0x80)), r)
        else none
      | _ => none
    else if 0xf1 ≤ b && b ≤ 0xf3 then
      match rest with
      | c1 :: c2 :: c3 :: r =>
        if contB c1 && contB c2 && contB c3 then
          some (Char.ofNat ((b - 0xf0) * 0x40000 + (c1 - 0x80) * 0x1000 +
                            (c2 - 0x80) * 0x40 + (c3 - 0x80)), r)
        else none
      | _ => none
    else if b = 0xf4 then
      match rest with
      | c1 :: c2 :: c3 :: r =>
        if (0x80 ≤ c1 && c1 ≤ 0x8f) && contB c2 && contB c3 then
          some (Char.ofNat (0x100000 + (c1 - 0x80) * 0x1000 +
                            (c2 - 0x80) * 0x40 + (c3 - 0x80)), r)
        else none
      | _ => none
    else none

/-- Strict UTF-8 decoding with structural fuel (`fuel ≥ bs.length` always
holds at every call site, since each `utf8Step` consumes at least a byte). -/
def utf8DecodeAux : Nat → List Nat → Option (List Char)
  | _, [] => some []
  | 0, _ :: _ => none
  | fuel + 1, b :: rest =>
    match utf8Step (b :: rest) with
    | some (c, r) => (utf8DecodeAux fuel r).map (fun cs => c :: cs)
    | none => none

/-- Model of Python `data.decode("utf-8")` (strict): `none` on invalid UTF-8. -/
def utf8Decode? (bs : List Nat) : Option (List Char) :=
  utf8DecodeAux bs.length bs

/-- Model of Python `data.decode("utf-8", errors="replace")`: invalid bytes
become U+FFFD.  (Python coalesces a maximal invalid subsequence into one
replacement character; this model replaces byte-by-byte.  No claim depends
on the text produced for invalid input, only on the event being built.) -/
def utf8ReplAux : Nat → List Nat → List Char
  | _, [] => []
  | 0, _ :: _ => []
  | fuel + 1, b :: rest =>
    match utf8Step (b :: rest) with
    | some (c, r) => c :: utf8ReplAux fuel r
    | none => Char.ofNat 0xfffd :: utf8ReplAux fuel rest

/-- Model of Python `data.decode("utf-8", errors="replace")`. -/
def utf8DecodeReplace (bs : List Nat) : List Char :=
  utf8ReplAux bs.length bs

/-- Bytes of an ASCII Lean string literal, for writing Python `b"..."`
literals (all literals in the claims are ASCII). -/
def strBytes (s : String) : List Nat := s.data.map Char.toNat

/-! ## Python character predicates -/

/-- Model of Python `str.isspace` on one character — the exact set of code
points Python strips with `str.strip()` and matches with the regex `\s`
class: ASCII whitespace, `\x1c`–`\x1f`, NEL, NBSP, and the Unicode space
separators. -/
def pyIsSpace (c : Char) : Bool :=
  let n := c.toNat
  n = 0x20 || (0x09 ≤ n && n ≤ 0x0d) || (0x1c ≤ n && n ≤ 0x1f) ||
  n = 0x85 || n = 0xa0 || n = 0x1680 || (0x2000 ≤ n && n ≤ 0x200a) ||
  n = 0x2028 || n = 0x2029 || n = 0x202f || n = 0x205f || n = 0x3000

/-- Model of Python `str.strip()`: drop leading and trailing whitespace. -/
def pyStrip (s : List Char) : List Char :=
  ((s.dropWhile pyIsSpace).reverse.dropWhile pyIsSpace).reverse

/-- Code-point ranges of the Unicode decimal digits (category Nd) — the
exact set the regex class `\d` matches in a CPython `str` pattern without
`re.ASCII` (Unicode 14.0.0, as shipped with the CPython 3.11 runtime). -/
def decimalDigitRanges : List (Nat × Nat) := [
    (0x30, 0x39), (0x660, 0x669), (0x6f0, 0x6f9), (0x7c0, 0x7c9),
    (0x966, 0x96f), (0x9e6, 0x9ef), (0xa66, 0xa6f), (0xae6, 0xaef),
    (0xb66, 0xb6f), (0xbe6, 0xbef), (0xc66, 0xc6f), (0xce6, 0xcef),
    (0xd66, 0xd6f), (0xde6, 0xdef), (0xe50, 0xe59), (0xed0, 0xed9),
    (0xf20, 0xf29), (0x1040, 0x1049), (0x1090, 0x1099), (0x17e0, 0x17e9),
    (0x1810, 0x1819), (0x1946, 0x194f), (0x19d0, 0x19d9), (0x1a80, 0x1a89),
    (0x1a90, 0x1a99), (0x1b50, 0x1b59), (0x1bb0, 0x1bb9), (0x1c40, 0x1c49),
    (0x1c50, 0x1c59), (0xa620, 0xa629), (0xa8d0, 0xa8d9), (0xa900, 0xa909),
    (0xa9d0, 0xa9d9), (0xa9f0, 0xa9f9), (0xaa50, 0xaa59), (0xabf0, 0xabf9),
    (0xff10, 0xff19), (0x104a0, 0x104a9), (0x10d30, 0x10d39), (0x11066, 0x1106f),
    (0x110f0, 0x110f9), (0x11136, 0x1113f), (0x111d0, 0x111d9), (0x112f0, 0x112f9),
    (0x11450, 0x11459), (0x114d0, 0x114d9), (0x11650, 0x11659), (0x116c0, 0x116c9),
    (0x11730, 0x11739), (0x118e0, 0x118e9), (0x11950, 0x11959), (0x11c50, 0x11c59),
    (0x11d50, 0x11d59), (0x11da0, 0x11da9), (0x16a60, 0x16a69), (0x16ac0, 0x16ac9),
    (0x16b50, 0x16b59), (0x1d7ce, 0x1d7ff), (0x1e140, 0x1e149), (0x1e2f0, 0x1e2f9),
    (0x1e950, 0x1e959), (0x1fbf0, 0x1fbf9) ]

/-- Code-point ranges of the characters Python's `str.isdigit` accepts:
the Nd decimal digits plus the other Numeric_Type=Digit code points such as
superscripts (Unicode 14.0.0). -/
def strIsDigitRanges : List (Nat × Nat) := [
    (0x30, 0x39), (0xb2, 0xb3), (0xb9, 0xb9), (0x660, 0x669),
    (0x6f0, 0x6f9), (0x7c0, 0x7c9), (0x966, 0x96f), (0x9e6, 0x9ef),
    (0xa66, 0xa6f), (0xae6, 0xaef), (0xb66, 0xb6f), (0xbe6, 0xbef),
    (0xc66, 0xc6f), (0xce6, 0xcef), (0xd66, 0xd6f), (0xde6, 0xdef),
    (0xe50, 0xe59), (0xed0, 0xed9), (0xf20, 0xf29), (0x1040, 0x1049),
    (0x1090, 0x1099), (0x1369, 0x1371), (0x17e0, 0x17e9), (0x1810, 0x1819),
    (0x1946, 0x194f), (0x19d0, 0x19da), (0x1a80, 0x1a89), (0x1a90, 0x1a99),
    (0x1b50, 0x1b59), (0x1bb0, 0x1bb9), (0x1c40, 0x1c49), (0x1c50, 0x1c59),
    (0x2070, 0x2070), (0x2074, 0x2079), (0x2080, 0x2089), (0x2460, 0x2468),
    (0x2474, 0x247c), (0x2488, 0x2490), (0x24ea, 0x24ea), (0x24f5, 0x24fd),
    (0x24ff, 0x24ff), (0x2776, 0x277e), (0x2780, 0x2788), (0x278a, 0x2792),
    (0xa620, 0xa629), (0xa8d0, 0xa8d9), (0xa900, 0xa909), (0xa9d0, 0xa9d9),
    (0xa9f0, 0xa9f9), (0xaa50, 0xaa59), (0xabf0, 0xabf9), (0xff10, 0xff19),
    (0x104a0, 0x104a9), (0x10a40, 0x10a43), (0x10d30, 0x10d39), (0x10e60, 0x10e68),
    (0x11052, 0x1105a), (0x11066, 0x1106f), (0x110f0, 0x110f9), (0x11136, 0x1113f),
    (0x111d0, 0x111d9), (0x112f0, 0x112f9), (0x11450, 0x11459), (0x114d0, 0x114d9),
    (0x11650, 0x11659), (0x116c0, 0x116c9), (0x11730, 0x11739), (0x118e0, 0x118e9),
    (0x11950, 0x11959), (0x11c50, 0x11c59), (0x11d50, 0x11d59), (0x11da0, 0x11da9),
    (0x16a60, 0x16a69), (0x16ac0, 0x16ac9), (0x16b50, 0x16b59), (0x1d7ce, 0x1d7ff),
    (0x1e140, 0x1e149), (0x1e2f0, 0x1e2f9), (0x1e950, 0x1e959), (0x1f100, 0x1f10a),
    (0x1fbf0, 0x1fbf9) ]

/-- Code-point ranges of the characters the regex class `\w` matches in a
CPython `str` pattern without `re.ASCII`: exactly the code points with
`ch.isalnum() or ch == chr(0x5f)` (Unicode 14.0.0). -/
def wordRanges : List (Nat × Nat) := [
    (0x30, 0x39), (0x41, 0x5a), (0x5f, 0x5f), (0x61, 0x7a),
    (0xaa, 0xaa), (0xb2, 0xb3), (0xb5, 0xb5), (0xb9, 0xba),
    (0xbc, 0xbe), (0xc0, 0xd6), (0xd8, 0xf6), (0xf8, 0x2c1),
    (0x2c6, 0x2d1), (0x2e0, 0x2e4), (0x2ec, 0x2ec), (0x2ee, 0x2ee),
    (0x370, 0x374), (0x376, 0x377), (0x37a, 0x37d), (0x37f, 0x37f),
    (0x386, 0x386), (0x388, 0x38a), (0x38c, 0x38c), (0x38e, 0x3a1),
    (0x3a3, 0x3f5), (0x3f7, 0x481), (0x48a, 0x52f), (0x531, 0x556),
    (0x559, 0x559), (0x560, 0x588), (0x5d0, 0x5ea), (0x5ef, 0x5f2),
    (0x620, 0x64a), (0x660, 0x669), (0x66e, 0x66f), (0x671, 0x6d3),
    (0x6d5, 0x6d5), (0x6e5, 0x6e6), (0x6ee, 0x6fc), (0x6ff, 0x6ff),
    (0x710, 0x710), (0x712, 0x72f), (0x74d, 0x7a5), (0x7b1, 0x7b1),
    (0x7c0, 0x7ea), (0x7f4, 0x7f5), (0x7fa, 0x7fa), (0x800, 0x815),
    (0x81a, 0x81a), (0x824, 0x824), (0x828, 0x828), (0x840, 0x858),
    (0x860, 0x86a), (0x870, 0x887), (0x889, 0x88e), (0x8a0, 0x8c9),
    (0x904, 0x939), (0x93d, 0x93d), (0x950, 0x950), (0x958, 0x961),
    (0x966, 0x96f), (0x971, 0x980), (0x985, 0x98c), (0x98f, 0x990),
    (0x993, 0x9a8), (0x9aa, 0x9b0), (0x9b2, 0x9b2), (0x9b6, 0x9b9),
    (0x9bd, 0x9bd), (0x9ce, 0x9ce), (0x9dc, 0x9dd), (0x9df, 0x9e1),
    (0x9e6, 0x9f1), (0x9f4, 0x9f9), (0x9fc, 0x9fc), (0xa05, 0xa0a),
    (0xa0f, 0xa10), (0xa13, 0xa28), (0xa2a, 0xa30), (0xa32, 0xa33),
    (0xa35, 0xa36), (0xa38, 0xa39), (0xa59, 0xa5c), (0xa5e, 0xa5e),
    (0xa66, 0xa6f), (0xa72, 0xa74), (0xa85, 0xa8d), (0xa8f, 0xa91),
    (0xa93, 0xaa8), (0xaaa, 0xab0), (0xab2, 0xab3), (0xab5, 0xab9),
    (0xabd, 0xabd), (0xad0, 0xad0), (0xae0, 0xae1), (0xae6, 0xaef),
    (0xaf9, 0xaf9), (0xb05, 0xb0c), (0xb0f, 0xb10), (0xb13, 0xb28),
    (0xb2a, 0xb30), (0xb32, 0xb33), (0xb35, 0xb39), (0xb3d, 0xb3d),
    (0xb5c, 0xb5d), (0xb5f, 0xb61), (0xb66, 0xb6f), (0xb71, 0xb77),
    (0xb83, 0xb83), (0xb85, 0xb8a), (0xb8e, 0xb90), (0xb92, 0xb95),
    (0xb99, 0xb9a), (0xb9c, 0xb9c), (0xb9e, 0xb9f), (0xba3, 0xba4),
    (0xba8, 0xbaa), (0xbae, 0xbb9), (0xbd0, 0xbd0), (0xbe6, 0xbf2),
    (0xc05, 0xc0c), (0xc0e, 0xc10), (0xc12, 0xc28), (0xc2a, 0xc39),
    (0xc3d, 0xc3d), (0xc58, 0xc5a), (0xc5d, 0xc5d), (0xc60, 0xc61),
    (0xc66, 0xc6f), (0xc78, 0xc7e), (0xc80, 0xc80), (0xc85, 0xc8c),
    (0xc8e, 0xc90), (0xc92, 0xca8), (0xcaa, 0xcb3), (0xcb5, 0xcb9),
    (0xcbd, 0xcbd), (0xcdd, 0xcde), (0xce0, 0xce1), (0xce6, 0xcef),
    (0xcf1, 0xcf2), (0xd04, 0xd0c), (0xd0e, 0xd10), (0xd12, 0xd3a),
    (0xd3d, 0xd3d), (0xd4e, 0xd4e), (0xd54, 0xd56), (0xd58, 0xd61),
    (0xd66, 0xd78), (0xd7a, 0xd7f), (0xd85, 0xd96), (0xd9a, 0xdb1),
    (0xdb3, 0xdbb), (0xdbd, 0xdbd), (0xdc0, 0xdc6), (0xde6, 0xdef),
    (0xe01, 0xe30), (0xe32, 0xe33), (0xe40, 0xe46), (0xe50, 0xe59),
    (0xe81, 0xe82), (0xe84, 0xe84), (0xe86, 0xe8a), (0xe8c, 0xea3),
    (0xea5, 0xea5), (0xea7, 0xeb0), (0xeb2, 0xeb3), (0xebd, 0xebd),
    (0xec0, 0xec4), (0xec6, 0xec6), (0xed0, 0xed9), (0xedc, 0xedf),
    (0xf00, 0xf00), (0xf20, 0xf33), (0xf40, 0xf47), (0xf49, 0xf6c),
    (0xf88, 0xf8c), (0x1000, 0x102a), (0x103f, 0x1049), (0x1050, 0x1055),
    (0x105a, 0x105d), (0x1061, 0x1061), (0x1065, 0x1066), (0x106e, 0x1070),
    (0x1075, 0x1081), (0x108e, 0x108e), (0x1090, 0x1099), (0x10a0, 0x10c5),
    (0x10c7, 0x10c7), (0x10cd, 0x10cd), (0x10d0, 0x10fa), (0x10fc, 0x1248),
    (0x124a, 0x124d), (0x1250, 0x1256), (0x1258, 0x1258), (0x125a, 0x125d),
    (0x1260, 0x1288), (0x128a, 0x128d), (0x1290, 0x12b0), (0x12b2, 0x12b5),
    (0x12b8, 0x12be), (0x12c0, 0x12c0), (0x12c2, 0x12c5), (0x12c8, 0x12d6),
    (0x12d8, 0x1310), (0x1312, 0x1315), (0x1318, 0x135a), (0x1369, 0x137c),
    (0x1380, 0x138f), (0x13a0, 0x13f5), (0x13f8, 0x13fd), (0x1401, 0x166c),
    (0x166f, 0x167f), (0x1681, 0x169a), (0x16a0, 0x16ea), (0x16ee, 0x16f8),
    (0x1700, 0x1711), (0x171f, 0x1731), (0x1740, 0x1751), (0x1760, 0x176c),
    (0x176e, 0x1770), (0x1780, 0x17b3), (0x17d7, 0x17d7), (0x17dc, 0x17dc),
    (0x17e0, 0x17e9), (0x17f0, 0x17f9), (0x1810, 0x1819), (0x1820, 0x1878),
    (0x1880, 0x1884), (0x1887, 0x18a8), (0x18aa, 0x18aa), (0x18b0, 0x18f5),
    (0x1900, 0x191e), (0x1946, 0x196d), (0x1970, 0x1974), (0x1980, 0x19ab),
    (0x19b0, 0x19c9), (0x19d0, 0x19da), (0x1a00, 0x1a16), (0x1a20, 0x1a54),
    (0x1a80, 0x1a89), (0x1a90, 0x1a99), (0x1aa7, 0x1aa7), (0x1b05, 0x1b33),
    (0x1b45, 0x1b4c), (0x1b50, 0x1b59), (0x1b83, 0x1ba0), (0x1bae, 0x1be5),
    (0x1c00, 0x1c23), (0x1c40, 0x1c49), (0x1c4d, 0x1c7d), (0x1c80, 0x1c88),
    (0x1c90, 0x1cba), (0x1cbd, 0x1cbf), (0x1ce9, 0x1cec), (0x1cee, 0x1cf3),
    (0x1cf5, 0x1cf6), (0x1cfa, 0x1cfa), (0x1d00, 0x1dbf), (0x1e00, 0x1f15),
    (0x1f18, 0x1f1d), (0x1f20, 0x1f45), (0x1f48, 0x1f4d), (0x1f50, 0x1f57),
    (0x1f59, 0x1f59), (0x1f5b, 0x1f5b), (0x1f5d, 0x1f5d), (0x1f5f, 0x1f7d),
    (0x1f80, 0x1fb4), (0x1fb6, 0x1fbc), (0x1fbe, 0x1fbe), (0x1fc2, 0x1fc4),
    (0x1fc6, 0x1fcc), (0x1fd0, 0x1fd3), (0x1fd6, 0x1fdb), (0x1fe0, 0x1fec),
    (0x1ff2, 0x1ff4), (0x1ff6, 0x1ffc), (0x2070, 0x2071), (0x2074, 0x2079),
    (0x207f, 0x2089), (0x2090, 0x209c), (0x2102, 0x2102), (0x2107, 0x2107),
    (0x210a, 0x2113), (0x2115, 0x2115), (0x2119, 0x211d), (0x2124, 0x2124),
    (0x2126, 0x2126), (0x2128, 0x2128), (0x212a, 0x212d), (0x212f, 0x2139),
    (0x213c, 0x213f), (0x2145, 0x2149), (0x214e, 0x214e), (0x2150, 0x2189),
    (0x2460, 0x249b), (0x24ea, 0x24ff), (0x2776, 0x2793), (0x2c00, 0x2ce4),
    (0x2ceb, 0x2cee), (0x2cf2, 0x2cf3), (0x2cfd, 0x2cfd), (0x2d00, 0x2d25),
    (0x2d27, 0x2d27), (0x2d2d, 0x2d2d), (0x2d30, 0x2d67), (0x2d6f, 0x2d6f),
    (0x2d80, 0x2d96), (0x2da0, 0x2da6), (0x2da8, 0x2dae), (0x2db0, 0x2db6),
    (0x2db8, 0x2dbe), (0x2dc0, 0x2dc6), (0x2dc8, 0x2dce), (0x2dd0, 0x2dd6),
    (0x2dd8, 0x2dde), (0x2e2f, 0x2e2f), (0x3005, 0x3007), (0x3021, 0x3029),
    (0x3031, 0x3035), (0x3038, 0x303c), (0x3041, 0x3096), (0x309d, 0x309f),
    (0x30a1, 0x30fa), (0x30fc, 0x30ff), (0x3105, 0x312f), (0x3131, 0x318e),
    (0x3192, 0x3195), (0x31a0, 0x31bf), (0x31f0, 0x31ff), (0x3220, 0x3229),
    (0x3248, 0x324f), (0x3251, 0x325f), (0x3280, 0x3289), (0x32b1, 0x32bf),
    (0x3400, 0x4dbf), (0x4e00, 0xa48c), (0xa4d0, 0xa4fd), (0xa500, 0xa60c),
    (0xa610, 0xa62b), (0xa640, 0xa66e), (0xa67f, 0xa69d), (0xa6a0, 0xa6ef),
    (0xa717, 0xa71f), (0xa722, 0xa788), (0xa78b, 0xa7ca), (0xa7d0, 0xa7d1),
    (0xa7d3, 0xa7d3), (0xa7d5, 0xa7d9), (0xa7f2, 0xa801), (0xa803, 0xa805),
    (0xa807, 0xa80a), (0xa80c, 0xa822), (0xa830, 0xa835), (0xa840, 0xa873),
    (0xa882, 0xa8b3), (0xa8d0, 0xa8d9), (0xa8f2, 0xa8f7), (0xa8fb, 0xa8fb),
    (0xa8fd, 0xa8fe), (0xa900, 0xa925), (0xa930, 0xa946), (0xa960, 0xa97c),
    (0xa984, 0xa9b2), (0xa9cf, 0xa9d9), (0xa9e0, 0xa9e4), (0xa9e6, 0xa9fe),
    (0xaa00, 0xaa28), (0xaa40, 0xaa42), (0xaa44, 0xaa4b), (0xaa50, 0xaa59),
    (0xaa60, 0xaa76), (0xaa7a, 0xaa7a), (0xaa7e, 0xaaaf), (0xaab1, 0xaab1),
    (0xaab5, 0xaab6), (0xaab9, 0xaabd), (0xaac0, 0xaac0), (0xaac2, 0xaac2),
    (0xaadb, 0xaadd), (0xaae0, 0xaaea), (0xaaf2, 0xaaf4), (0xab01, 0xab06),
    (0xab09, 0xab0e), (0xab11, 0xab16), (0xab20, 0xab26), (0xab28, 0xab2e),
    (0xab30, 0xab5a), (0xab5c, 0xab69), (0xab70, 0xabe2), (0xabf0, 0xabf9),
    (0xac00, 0xd7a3), (0xd7b0, 0xd7c6), (0xd7cb, 0xd7fb), (0xf900, 0xfa6d),
    (0xfa70, 0xfad9), (0xfb00, 0xfb06), (0xfb13, 0xfb17), (0xfb1d, 0xfb1d),
    (0xfb1f, 0xfb28), (0xfb2a, 0xfb36), (0xfb38, 0xfb3c), (0xfb3e, 0xfb3e),
    (0xfb40, 0xfb41), (0xfb43, 0xfb44), (0xfb46, 0xfbb1), (0xfbd3, 0xfd3d),
    (0xfd50, 0xfd8f), (0xfd92, 0xfdc7), (0xfdf0, 0xfdfb), (0xfe70, 0xfe74),
    (0xfe76, 0xfefc), (0xff10, 0xff19), (0xff21, 0xff3a), (0xff41, 0xff5a),
    (0xff66, 0xffbe), (0xffc2, 0xffc7), (0xffca, 0xffcf), (0xffd2, 0xffd7),
    (0xffda, 0xffdc), (0x10000, 0x1000b), (0x1000d, 0x10026), (0x10028, 0x1003a),
    (0x1003c, 0x1003d), (0x1003f, 0x1004d), (0x10050, 0x1005d), (0x10080, 0x100fa),
    (0x10107, 0x10133), (0x10140, 0x10178), (0x1018a, 0x1018b), (0x10280, 0x1029c),
    (0x102a0, 0x102d0), (0x102e1, 0x102fb), (0x10300, 0x10323), (0x1032d, 0x1034a),
    (0x10350, 0x10375), (0x10380, 0x1039d), (0x103a0, 0x103c3), (0x103c8, 0x103cf),
    (0x103d1, 0x103d5), (0x10400, 0x1049d), (0x104a0, 0x104a9), (0x104b0, 0x104d3),
    (0x104d8, 0x104fb), (0x10500, 0x10527), (0x10530, 0x10563), (0x10570, 0x1057a),
    (0x1057c, 0x1058a), (0x1058c, 0x10592), (0x10594, 0x10595), (0x10597, 0x105a1),
    (0x105a3, 0x105b1), (0x105b3, 0x105b9), (0x105bb, 0x105bc), (0x10600, 0x10736),
    (0x10740, 0x10755), (0x10760, 0x10767), (0x10780, 0x10785), (0x10787, 0x107b0),
    (0x107b2, 0x107ba), (0x10800, 0x10805), (0x10808, 0x10808), (0x1080a, 0x10835),
    (0x10837, 0x10838), (0x1083c, 0x1083c), (0x1083f, 0x10855), (0x10858, 0x10876),
    (0x10879, 0x1089e), (0x108a7, 0x108af), (0x108e0, 0x108f2), (0x108f4, 0x108f5),
    (0x108fb, 0x1091b), (0x10920, 0x10939), (0x10980, 0x109b7), (0x109bc, 0x109cf),
    (0x109d2, 0x10a00), (0x10a10, 0x10a13), (0x10a15, 0x10a17), (0x10a19, 0x10a35),
    (0x10a40, 0x10a48), (0x10a60, 0x10a7e), (0x10a80, 0x10a9f), (0x10ac0, 0x10ac7),
    (0x10ac9, 0x10ae4), (0x10aeb, 0x10aef), (0x10b00, 0x10b35), (0x10b40, 0x10b55),
    (0x10b58, 0x10b72), (0x10b78, 0x10b91), (0x10ba9, 0x10baf), (0x10c00, 0x10c48),
    (0x10c80, 0x10cb2), (0x10cc0, 0x10cf2), (0x10cfa, 0x10d23), (0x10d30, 0x10d39),
    (0x10e60, 0x10e7e), (0x10e80, 0x10ea9), (0x10eb0, 0x10eb1), (0x10f00, 0x10f27),
    (0x10f30, 0x10f45), (0x10f51, 0x10f54), (0x10f70, 0x10f81), (0x10fb0, 0x10fcb),
    (0x10fe0, 0x10ff6), (0x11003, 0x11037), (0x11052, 0x1106f), (0x11071, 0x11072),
    (0x11075, 0x11075), (0x11083, 0x110af), (0x110d0, 0x110e8), (0x110f0, 0x110f9),
    (0x11103, 0x11126), (0x11136, 0x1113f), (0x11144, 0x11144), (0x11147, 0x11147),
    (0x11150, 0x11172), (0x11176, 0x11176), (0x11183, 0x111b2), (0x111c1, 0x111c4),
    (0x111d0, 0x111da), (0x111dc, 0x111dc), (0x111e1, 0x111f4), (0x11200, 0x11211),
    (0x11213, 0x1122b), (0x11280, 0x11286), (0x11288, 0x11288), (0x1128a, 0x1128d),
    (0x1128f, 0x1129d), (0x1129f, 0x112a8), (0x112b0, 0x112de), (0x112f0, 0x112f9),
    (0x11305, 0x1130c), (0x1130f, 0x11310), (0x11313, 0x11328), (0x1132a, 0x11330),
    (0x11332, 0x11333), (0x11335, 0x11339), (0x1133d, 0x1133d), (0x11350, 0x11350),
    (0x1135d, 0x11361), (0x11400, 0x11434), (0x11447, 0x1144a), (0x11450, 0x11459),
    (0x1145f, 0x11461), (0x11480, 0x114af), (0x114c4, 0x114c5), (0x114c7, 0x114c7),
    (0x114d0, 0x114d9), (0x11580, 0x115ae), (0x115d8, 0x115db), (0x11600, 0x1162f),
    (0x11644, 0x11644), (0x11650, 0x11659), (0x11680, 0x116aa), (0x116b8, 0x116b8),
    (0x116c0, 0x116c9), (0x11700, 0x1171a), (0x11730, 0x1173b), (0x11740, 0x11746),
    (0x11800, 0x1182b), (0x118a0, 0x118f2), (0x118ff, 0x11906), (0x11909, 0x11909),
    (0x1190c, 0x11913), (0x11915, 0x11916), (0x11918, 0x1192f), (0x1193f, 0x1193f),
    (0x11941, 0x11941), (0x11950, 0x11959), (0x119a0, 0x119a7), (0x119aa, 0x119d0),
    (0x119e1, 0x119e1), (0x119e3, 0x119e3), (0x11a00, 0x11a00), (0x11a0b, 0x11a32),
    (0x11a3a, 0x11a3a), (0x11a50, 0x11a50), (0x11a5c, 0x11a89), (0x11a9d, 0x11a9d),
    (0x11ab0, 0x11af8), (0x11c00, 0x11c08), (0x11c0a, 0x11c2e), (0x11c40, 0x11c40),
    (0x11c50, 0x11c6c), (0x11c72, 0x11c8f), (0x11d00, 0x11d06), (0x11d08, 0x11d09),
    (0x11d0b, 0x11d30), (0x11d46, 0x11d46), (0x11d50, 0x11d59), (0x11d60, 0x11d65),
    (0x11d67, 0x11d68), (0x11d6a, 0x11d89), (0x11d98, 0x11d98), (0x11da0, 0x11da9),
    (0x11ee0, 0x11ef2), (0x11fb0, 0x11fb0), (0x11fc0, 0x11fd4), (0x12000, 0x12399),
    (0x12400, 0x1246e), (0x12480, 0x12543), (0x12f90, 0x12ff0), (0x13000, 0x1342e),
    (0x14400, 0x14646), (0x16800, 0x16a38), (0x16a40, 0x16a5e), (0x16a60, 0x16a69),
    (0x16a70, 0x16abe), (0x16ac0, 0x16ac9), (0x16ad0, 0x16aed), (0x16b00, 0x16b2f),
    (0x16b40, 0x16b43), (0x16b50, 0x16b59), (0x16b5b, 0x16b61), (0x16b63, 0x16b77),
    (0x16b7d, 0x16b8f), (0x16e40, 0x16e96), (0x16f00, 0x16f4a), (0x16f50, 0x16f50),
    (0x16f93, 0x16f9f), (0x16fe0, 0x16fe1), (0x16fe3, 0x16fe3), (0x17000, 0x187f7),
    (0x18800, 0x18cd5), (0x18d00, 0x18d08), (0x1aff0, 0x1aff3), (0x1aff5, 0x1affb),
    (0x1affd, 0x1affe), (0x1b000, 0x1b122), (0x1b150, 0x1b152), (0x1b164, 0x1b167),
    (0x1b170, 0x1b2fb), (0x1bc00, 0x1bc6a), (0x1bc70, 0x1bc7c), (0x1bc80, 0x1bc88),
    (0x1bc90, 0x1bc99), (0x1d2e0, 0x1d2f3), (0x1d360, 0x1d378), (0x1d400, 0x1d454),
    (0x1d456, 0x1d49c), (0x1d49e, 0x1d49f), (0x1d4a2, 0x1d4a2), (0x1d4a5, 0x1d4a6),
    (0x1d4a9, 0x1d4ac), (0x1d4ae, 0x1d4b9), (0x1d4bb, 0x1d4bb), (0x1d4bd, 0x1d4c3),
    (0x1d4c5, 0x1d505), (0x1d507, 0x1d50a), (0x1d50d, 0x1d514), (0x1d516, 0x1d51c),
    (0x1d51e, 0x1d539), (0x1d53b, 0x1d53e), (0x1d540, 0x1d544), (0x1d546, 0x1d546),
    (0x1d54a, 0x1d550), (0x1d552, 0x1d6a5), (0x1d6a8, 0x1d6c0), (0x1d6c2, 0x1d6da),
    (0x1d6dc, 0x1d6fa), (0x1d6fc, 0x1d714), (0x1d716, 0x1d734), (0x1d736, 0x1d74e),
    (0x1d750, 0x1d76e), (0x1d770, 0x1d788), (0x1d78a, 0x1d7a8), (0x1d7aa, 0x1d7c2),
    (0x1d7c4, 0x1d7cb), (0x1d7ce, 0x1d7ff), (0x1df00, 0x1df1e), (0x1e100, 0x1e12c),
    (0x1e137, 0x1e13d), (0x1e140, 0x1e149), (0x1e14e, 0x1e14e), (0x1e290, 0x1e2ad),
    (0x1e2c0, 0x1e2eb), (0x1e2f0, 0x1e2f9), (0x1e7e0, 0x1e7e6), (0x1e7e8, 0x1e7eb),
    (0x1e7ed, 0x1e7ee), (0x1e7f0, 0x1e7fe), (0x1e800, 0x1e8c4), (0x1e8c7, 0x1e8cf),
    (0x1e900, 0x1e943), (0x1e94b, 0x1e94b), (0x1e950, 0x1e959), (0x1ec71, 0x1ecab),
    (0x1ecad, 0x1ecaf), (0x1ecb1, 0x1ecb4), (0x1ed01, 0x1ed2d), (0x1ed2f, 0x1ed3d),
    (0x1ee00, 0x1ee03), (0x1ee05, 0x1ee1f), (0x1ee21, 0x1ee22), (0x1ee24, 0x1ee24),
    (0x1ee27, 0x1ee27), (0x1ee29, 0x1ee32), (0x1ee34, 0x1ee37), (0x1ee39, 0x1ee39),
    (0x1ee3b, 0x1ee3b), (0x1ee42, 0x1ee42), (0x1ee47, 0x1ee47), (0x1ee49, 0x1ee49),
    (0x1ee4b, 0x1ee4b), (0x1ee4d, 0x1ee4f), (0x1ee51, 0x1ee52), (0x1ee54, 0x1ee54),
    (0x1ee57, 0x1ee57), (0x1ee59, 0x1ee59), (0x1ee5b, 0x1ee5b), (0x1ee5d, 0x1ee5d),
    (0x1ee5f, 0x1ee5f), (0x1ee61, 0x1ee62), (0x1ee64, 0x1ee64), (0x1ee67, 0x1ee6a),
    (0x1ee6c, 0x1ee72), (0x1ee74, 0x1ee77), (0x1ee79, 0x1ee7c), (0x1ee7e, 0x1ee7e),
    (0x1ee80, 0x1ee89), (0x1ee8b, 0x1ee9b), (0x1eea1, 0x1eea3), (0x1eea5, 0x1eea9),
    (0x1eeab, 0x1eebb), (0x1f100, 0x1f10c), (0x1fbf0, 0x1fbf9), (0x20000, 0x2a6df),
    (0x2a700, 0x2b738), (0x2b740, 0x2b81d), (0x2b820, 0x2cea1), (0x2ceb0, 0x2ebe0),
    (0x2f800, 0x2fa1d), (0x30000, 0x3134a) ]

/-- Membership of a character in a sorted list of closed code-point ranges. -/
def inRanges (rs : List (Nat × Nat)) (c : Char) : Bool :=
  rs.any (fun r => r.1 ≤ c.toNat && c.toNat ≤ r.2)

/-- Regex class `\d` (full Unicode Nd set, matching the program's
`str`-pattern regexes). -/
def pyIsDigit (c : Char) : Bool := inRanges decimalDigitRanges c

/-- Python `str.isdigit` on one character, used by the `DATA: ... Hz`
fallback heuristic (a strict superset of `\d`). -/
def pyStrIsDigit (c : Char) : Bool := inRanges strIsDigitRanges c

/-- Regex class `\w` (full Unicode word set, matching the program's
`str`-pattern regexes). -/
def pyIsWord (c : Char) : Bool := inRanges wordRanges c

/-- Regex class `[\d\.]`. -/
def pyIsDigitDot (c : Char) : Bool := pyIsDigit c || c = '.'

/-- Regex class `[01]`. -/
def pyIs01 (c : Char) : Bool := c = '0' || c = '1'

/-! ## HamlibParser (src/netmind/protocols.py)

The sixteen `PATTERNS` regexes use only: an anchored optional `\+?`, literal
characters, `\s+`, and greedy one-or-more captures `(\d+)`, `(\w+)`,
`([\d\.]+)` and the single-character capture `([01])`.  In every pattern the
character class of a quantified token is disjoint from whatever follows it
(word/digit characters are never whitespace, `\s` never matches `0`, `-` or
a digit, and `\+?` is never followed by a literal `+`), so Python's
backtracking regex engine is equivalent to the greedy non-backtracking
matcher below; `re.match` anchors at the start only, so trailing input is
ignored. -/

/-- One token of a (simplified) Hamlib pattern regex. -/
inductive RTok
  | lit (c : Char)
  | optPlus
  | ws1
  | capPlus (cls : Char → Bool)
  | capOne (cls : Char → Bool)

/-- Consume the anchored `\+?`: drop one leading `+` if present. -/
def dropPlus : List Char → List Char
  | [] => []
  | c :: r => if c = '+' then r else c :: r

/-- Match a token list against text (greedy, anchored at the start, trailing
text allowed).  Returns the captured groups in order, or `none`. -/
def matchToks : List RTok → List Char → Option (List (List Char))
  | [], _ => some []
  | .lit _ :: _, [] => none
  | .lit c :: ts, x :: r => if x = c then matchToks ts r else none
  | .optPlus :: ts, s => matchToks ts (dropPlus s)
  | .ws1 :: ts, s =>
    if (s.takeWhile pyIsSpace).isEmpty then none
    else matchToks ts (s.dropWhile pyIsSpace)
  | .capPlus cls :: ts, s =>
    if (s.takeWhile cls).isEmpty then none
    else (matchToks ts (s.dropWhile cls)).map (fun gs => s.takeWhile cls :: gs)
  | .capOne _ :: _, [] => none
  | .capOne cls :: ts, x :: r =>
    if cls x then (matchToks ts r).map (fun gs => [x] :: gs) else none

/-- Tokens of a literal string in a pattern. -/
def lits (s : String) : List RTok := s.data.map RTok.lit

/-- `HamlibParser.PATTERNS` — the fixed ordered (pattern, label) table
(protocols.py lines 19–36), pattern by pattern in source order. -/
def PATTERNS : List (List RTok × String) :=
  [ ([.optPlus, .lit 'F', .ws1, .capPlus pyIsDigit], "SET FREQ"),
    ([.optPlus, .lit 'f'], "GET FREQ"),
    ([.optPlus, .lit 'M', .ws1, .capPlus pyIsWord, .ws1, .capPlus pyIsDigit], "SET MODE"),
    ([.optPlus, .lit 'm'], "GET MODE"),
    ([.optPlus, .lit 'L', .ws1, .capPlus pyIsWord, .ws1, .capPlus pyIsDigitDot], "SET LEVEL"),
    ([.optPlus, .lit 'l', .ws1, .capPlus pyIsWord], "GET LEVEL"),
    ([.optPlus, .lit 'T', .ws1, .capOne pyIs01], "SET PTT"),
    ([.optPlus, .lit 't'], "GET PTT"),
    ([.optPlus] ++ lits "\\dump_state", "DUMP STATE"),
    ([.optPlus] ++ lits "\\dump_caps", "DUMP CAPS"),
    ([.optPlus] ++ lits "\\get_powerstat", "GET POWERSTAT"),
    ([.optPlus] ++ lits "\\chk_vfo", "CHECK VFO"),
    ([.optPlus] ++ lits "\\set_vfo" ++ [.ws1, .capPlus pyIsWord], "SET VFO"),
    ([.optPlus] ++ lits "\\get_vfo", "GET VFO"),
    (lits "RPRT" ++ [.ws1, .lit '0'], "SUCCESS"),
    (lits "RPRT" ++ [.ws1, .lit '-', .capPlus pyIsDigit], "ERROR") ]

/-- The `for pattern, label in cls.PATTERNS` loop: first matching rule wins,
returning its label and captured groups. -/
def findMatch : List (List RTok × String) → List Char → Option (String × List (List Char))
  | [], _ => none
  | (p, lbl) :: rest, t =>
    match matchToks p t with
    | some gs => some (lbl, gs)
    | none => findMatch rest t

/-- `" ".join(match.groups())` followed by
`f"{label}: {args}" if args else label` (protocols.py lines 62–63). -/
def renderMatch (label : String) (groups : List (List Char)) : String :=
  let args := String.intercalate (" ") (groups.map (fun g => String.mk g))
  if args = "" then label else label ++ ": " ++ args

/-- Body of `HamlibParser.decode` applied to the stripped decoded text
(protocols.py lines 56–69). -/
def decodeText (text : List Char) : String :=
  if text.isEmpty then "<EMPTY>"
  else
    match findMatch PATTERNS text with
    | some (label, groups) => renderMatch label groups
    | none =>
      if text.all pyStrIsDigit && decide (text.length > 6) then
        "DATA: " ++ String.mk text ++ " Hz"
      else "RAW: " ++ String.mk text

namespace HamlibParser

/-- `HamlibParser.decode` (protocols.py lines 38–69): strict UTF-8 decode and
strip; on decode failure `"<BINARY: {len(data)} bytes>"`; then the stripped
text goes through the pattern table and fallbacks of `decodeText`. -/
def decode (data : List Nat) : String :=
  match utf8Decode? data with
  | none => "<BINARY: " ++ toString data.length ++ " bytes>"
  | some cs => decodeText (pyStrip cs)

end HamlibParser

/-- The spec's `decode(protocolFamily, rawBytes)` dispatch, as performed in
`StateManager.log_packet` (core.py lines 116–118): the "hamlib" family uses
`HamlibParser.decode`, every other family gets an empty gloss. -/
def decodeFamily (family : String) (data : List Nat) : String :=
  if family = "hamlib" then HamlibParser.decode data else ""

/-! ## Data model (src/netmind/core.py) -/

/-- Hex digit character (lowercase), for `bytes.hex`. -/
def hexDigit (n : Nat) : Char := if n < 10 then Char.ofNat (48 + n) else Char.ofNat (87 + n)

/-- One byte as two lowercase hex digits. -/
def byteHex (b : Nat) : String := String.mk [hexDigit (b / 16), hexDigit (b % 16)]

/-- Model of Python `data.hex(' ')`: two hex digits per byte, space-separated. -/
def bytesHex (bs : List Nat) : String := String.intercalate (" ") (bs.map byteHex)

/-- `PacketEvent` dataclass (core.py lines 19–42).  `time.time()` returns a
float used only as an opaque stamp; it is carried as an `Int` tick. -/
structure PacketEvent where
  id : String
  proxy_name : String
  direction : String
  data_hex : String
  data_str : String
  semantic : String
  timestamp : Int
  connection_id : String
  type : String := "packet"
deriving DecidableEq

/-- `StatusEvent` dataclass (core.py lines 44–57). -/
structure StatusEvent where
  local_port : Nat
  status : String
  error_msg : Option String
  type : String := "status"
deriving DecidableEq

/-- `ProxyConfig` dataclass (core.py lines 59–78). -/
structure ProxyConfig where
  local_port : Nat
  target_host : String
  target_port : Nat
  name : String
  protocol : String := "raw"
  status : String := "unknown"
  error_msg : Option String := none
deriving DecidableEq

/-- The serialized form `asdict(event)` pushed onto subscriber queues in
`StateManager.broadcast` (core.py line 140).  `asdict` of a flat dataclass
is a faithful injective rendering of its fields; the embedding keeps the
event itself, tagged by kind. -/
inductive EventData
  | packet (e : PacketEvent)
  | status (e : StatusEvent)
deriving DecidableEq

/-- One subscriber's `asyncio.Queue(maxsize=...)`: a bounded FIFO.
`StateManager.subscribe` creates queues with capacity 100. -/
structure Queue where
  cap : Nat
  items : List EventData
deriving DecidableEq

/-- `StateManager.broadcast` (core.py lines 134–145): `q.put_nowait(data)`
for every subscriber queue; `asyncio.QueueFull` is caught and the event is
dropped for that subscriber only.  `put_nowait` succeeds exactly when the
queue holds fewer than `cap` items, appending at the tail. -/
def broadcast (subs : List Queue) (event : EventData) : List Queue :=
  subs.map (fun q => if q.items.length < q.cap then { q with items := q.items ++ [event] } else q)

/-- Python `dict` lookup `d.get(k)` on an insertion-ordered association
list with unique keys. -/
def dictGet (d : List (Nat × ProxyConfig)) (k : Nat) : Option ProxyConfig :=
  (d.find? (fun kv => kv.1 = k)).map (fun kv => kv.2)

/-- Python `dict` assignment `d[k] = v`: overwrite in place if the key
exists, else append. -/
def dictInsert (d : List (Nat × ProxyConfig)) (k : Nat) (v : ProxyConfig) :
    List (Nat × ProxyConfig) :=
  match d with
  | [] => [(k, v)]
  | (k', v') :: rest => if k' = k then (k, v) :: rest else (k', v') :: dictInsert rest k v

/-- Python `if k in d: del d[k]`: remove the entry (keys are unique). -/
def dictErase (d : List (Nat × ProxyConfig)) (k : Nat) : List (Nat × ProxyConfig) :=
  match d with
  | [] => []
  | (k', v') :: rest => if k' = k then rest else (k', v') :: dictErase rest k

/-- `collections.deque(maxlen=cap).append`: append at the tail, evicting
the oldest entry when the deque is at capacity. -/
def dequeAppend (cap : Nat) (log : List PacketEvent) (e : PacketEvent) : List PacketEvent :=
  let l := log ++ [e]
  l.drop (l.length - cap)

/-- `StateManager` fields (core.py lines 86–90): the bounded packet log
(`deque(maxlen=2000)`, oldest first), the subscriber queues, and the
`active_proxies` dict keyed by listen port.  (`active_connections` is never
read or written by any claimed operation.) -/
structure SMState where
  packet_log : List PacketEvent
  subscribers : List Queue
  active_proxies : List (Nat × ProxyConfig)
deriving DecidableEq

/-- The packet log's capacity: `deque(maxlen=2000)` (core.py line 87). -/
def PACKET_LOG_CAP : Nat := 2000

/-- `StateManager.log_packet` (core.py lines 100–132).  `uuid4()` and
`time.time()` are environment inputs, passed explicitly.  An unregistered
port returns with no effect; otherwise the `PacketEvent` is built (gloss via
the hamlib dispatch), appended to the bounded log, and broadcast. -/
def log_packet (s : SMState) (proxy_port : Nat) (direction : String) (data : List Nat)
    (conn_id : String) (uuid : String) (now : Int) : SMState :=
  match dictGet s.active_proxies proxy_port with
  | none => s
  | some config =>
    let semantic := decodeFamily config.protocol data
    let event : PacketEvent :=
      { id := uuid, proxy_name := config.name, direction := direction,
        data_hex := bytesHex data, data_str := String.mk (utf8DecodeReplace data),
        semantic := semantic, timestamp := now, connection_id := conn_id }
    { s with packet_log := dequeAppend PACKET_LOG_CAP s.packet_log event,
             subscribers := broadcast s.subscribers (.packet event) }

/-! ## History endpoints (src/netmind/app.py) -/

/-- Python slice `l[-limit:]` for an `int` limit: a negative slice start is
clamped as `max(0, len + start)` and a non-negative one as `min(start, len)`.
With `start = -limit`: for `limit > 0` this keeps the last `limit` entries,
for `limit = 0` the whole list (`l[-0:] = l[0:]`), and for `limit < 0` it
drops the first `-limit` entries. -/
def pyTail (l : List PacketEvent) (limit : Int) : List PacketEvent :=
  if 0 < limit then l.drop (l.length - limit.toNat) else l.drop (-limit).toNat

/-- The filter step of `get_history` (app.py lines 244–246): `if proxy_name:`
is false for both `None` and the empty string, so only a non-empty name
filters the log. -/
def applyNameFilter (proxy_name : Option String) (history : List PacketEvent) :
    List PacketEvent :=
  match proxy_name with
  | some nm => if nm = "" then history else history.filter (fun h => h.proxy_name = nm)
  | none => history

/-- `GET /api/history` handler `get_history` (app.py lines 233–247), up to
the `__dict__` JSON rendering of each event: snapshot the log, optionally
filter by proxy name, then return `history[-limit:]`. -/
def get_history (log : List PacketEvent) (limit : Int) (proxy_name : Option String) :
    List PacketEvent :=
  pyTail (applyNameFilter proxy_name log) limit

/-- MCP tool `list_traffic_history` (app.py lines 161–172), up to JSON
rendering: `list(state_manager.packet_log)[-limit:]`. -/
def list_traffic_history (log : List PacketEvent) (limit : Int) : List PacketEvent :=
  pyTail log limit

/-! ## ProxyEngine (src/netmind/core.py lines 247–382)

`ProxyEngine.add_proxy` performs no port check itself: `TCPProxy.start`
calls `asyncio.start_server('0.0.0.0', local_port)`, and the operating
system refuses to bind a port on which another live proxy's server is
already listening, raising `OSError(EADDRINUSE)` which propagates out of
`add_proxy` before any registration happens.  The embedding models the
OS-held listen ports as exactly the ports of the live proxies (`s.proxies`),
the only listeners the core creates, and `start_server` as failing on those. -/

/-- Engine plus state-manager state: `engine.proxies` holds each live
`TCPProxy`'s config (the only `TCPProxy` data the claims touch), and `sm`
is the `state_manager` singleton. -/
structure EngineState where
  proxies : List ProxyConfig
  sm : SMState
deriving DecidableEq

/-- Result of a Python call that either returns or raises, carrying the
state as of the return/raise. -/
inductive PyResult
  | ok (s : EngineState) (msg : String)
  | exn (s : EngineState) (msg : String)
deriving DecidableEq

/-- The `OSError` text `asyncio.start_server` raises when the listen port is
already bound by a live proxy. -/
def addrInUseMsg (port : Nat) : String :=
  "error while attempting to bind on address 0.0.0.0:" ++ toString port ++
  ": address already in use"

/-- `ProxyEngine.add_proxy` (core.py lines 253–271) together with
`TCPProxy.start` (lines 177–186): build the `ProxyConfig`; `start` binds the
listener — failing with `EADDRINUSE` when a live proxy already owns the
port, before any registration — then registers the config in
`state_manager.active_proxies`; finally the proxy joins `engine.proxies`
and a success description is returned. -/
def add_proxy (s : EngineState) (local_port : Nat) (target_host : String)
    (target_port : Nat) (name : String) (protocol : String) : PyResult :=
  if s.proxies.any (fun p => p.local_port = local_port) then
    .exn s (addrInUseMsg local_port)
  else
    let config : ProxyConfig :=
      { local_port := local_port, target_host := target_host, target_port := target_port,
        name := name, protocol := protocol }
    .ok { proxies := s.proxies ++ [config],
          sm := { s.sm with active_proxies := dictInsert s.sm.active_proxies local_port config } }
        ("Proxy '" ++ name ++ "' started on port " ++ toString local_port)

/-- The `for proxy in self.proxies` loop of `remove_proxy`: remove the first
proxy with the given listen port, `none` if there is none. -/
def removeFirst : List ProxyConfig → Nat → Option (List ProxyConfig)
  | [], _ => none
  | p :: rest, port =>
    if p.local_port = port then some rest
    else (removeFirst rest port).map (fun l => p :: l)

/-- `ProxyEngine.remove_proxy` (core.py lines 273–292): on the first live
proxy owning the port, close it, drop it from `engine.proxies`, delete the
port from `state_manager.active_proxies` if present, and return a success
description; otherwise raise `ValueError` with the state untouched. -/
def remove_proxy (s : EngineState) (local_port : Nat) : PyResult :=
  match removeFirst s.proxies local_port with
  | some rest =>
    .ok { proxies := rest,
          sm := { s.sm with active_proxies := dictErase s.sm.active_proxies local_port } }
        ("Proxy on port " ++ toString local_port ++ " stopped")
  | none => .exn s ("No proxy found on port " ++ toString local_port)

/-! ## Health monitor (src/netmind/core.py lines 343–380) -/

/-- Outcome of the probe connect in `_check_proxy_health` (lines 357–367):
the `try` block either connects within the timeout (status `"online"`,
`error_msg` stays `None`) or raises (status `"offline"`, `error_msg` the
exception text).  The network is environment, so the outcome is an input. -/
inductive ProbeOutcome
  | online
  | offline (msg : String)
deriving DecidableEq

/-- Status string the probe outcome yields. -/
def probeStatus : ProbeOutcome → String
  | .online => "online"
  | .offline _ => "offline"

/-- Error text the probe outcome yields. -/
def probeErr : ProbeOutcome → Option String
  | .online => none
  | .offline m => some m

/-- `ProxyEngine._check_proxy_health` (core.py lines 343–380) for one proxy:
if either the probed status or the probe error text differs from the values
recorded in the config, update the config and broadcast a `StatusEvent`
to the subscriber queues; otherwise do nothing. -/
def check_proxy_health (c : ProxyConfig) (subs : List Queue) (o : ProbeOutcome) :
    ProxyConfig × List Queue :=
  let status := probeStatus o
  let error_msg := probeErr o
  if c.status ≠ status ∨ c.error_msg ≠ error_msg then
    ({ c with status := status, error_msg := error_msg },
     broadcast subs (.status { local_port := c.local_port, status := status,
                               error_msg := error_msg }))
  else (c, subs)

/-! ## Helper lemmas -/

theorem decodeFamily_hamlib (data : List Nat) :
    decodeFamily "hamlib" data = HamlibParser.decode data := rfl

theorem decode_of_utf8_some {data : List Nat} {cs : List Char}
    (h : utf8Decode? data = some cs) :
    HamlibParser.decode data = decodeText (pyStrip cs) := by
  unfold HamlibParser.decode
  rw [h]

theorem decode_of_utf8_none {data : List Nat} (h : utf8Decode? data = none) :
    HamlibParser.decode data = "<BINARY: " ++ toString data.length ++ " bytes>" := by
  unfold HamlibParser.decode
  rw [h]

theorem findMatch_nil : findMatch PATTERNS ([] : List Char) = none := by decide

theorem decodeText_of_match {text : List Char} {lbl : String} {gs : List (List Char)}
    (hm : findMatch PATTERNS text = some (lbl, gs)) :
    decodeText text = renderMatch lbl gs := by
  cases text with
  | nil => rw [findMatch_nil] at hm; exact Option.noConfusion hm
  | cons a l =>
    unfold decodeText
    rw [hm]
    rfl

theorem decodeText_of_nomatch {text : List Char} (hne : text ≠ [])
    (hm : findMatch PATTERNS text = none) :
    decodeText text =
      (if text.all pyStrIsDigit && decide (text.length > 6) then
        "DATA: " ++ String.mk text ++ " Hz"
      else "RAW: " ++ String.mk text) := by
  cases text with
  | nil => exact absurd rfl hne
  | cons a l =>
    unfold decodeText
    rw [hm]
    simp only [List.isEmpty_cons, Bool.false_eq_true, if_false]

/-! ## Claim theorems -/

/-- Claim C3: for every byte chunk whose stripped UTF-8 text matches a rule
of the fixed ordered Hamlib pattern table, `decode` for the "hamlib" family
returns the first matching rule's label, with captured arguments joined by
a single space after the label and a colon when there are captures, and the
bare label when there are none; in particular
`decode("hamlib", b"F 14074000") = "SET FREQ: 14074000"`,
`decode("hamlib", b"RPRT 0") = "SUCCESS"` and
`decode("hamlib", b"RPRT -5") = "ERROR: 5"`. -/
theorem hamlib_decode_first_match_wins (data : List Nat) (cs : List Char) (lbl : String)
    (gs : List (List Char)) (hdec : utf8Decode? data = some cs)
    (hm : findMatch PATTERNS (pyStrip cs) = some (lbl, gs)) :
    decodeFamily "hamlib" data =
      (if String.intercalate (" ") (gs.map (fun g => String.mk g)) = "" then lbl
       else lbl ++ ": " ++ String.intercalate (" ") (gs.map (fun g => String.mk g))) ∧
    decodeFamily "hamlib" (strBytes "F 14074000") = "SET FREQ: 14074000" ∧
    decodeFamily "hamlib" (strBytes "RPRT 0") = "SUCCESS" ∧
    decodeFamily "hamlib" (strBytes "RPRT -5") = "ERROR: 5" := by
  refine ⟨?_, by decide, by decide, by decide⟩
  rw [decodeFamily_hamlib, decode_of_utf8_some hdec, decodeText_of_match hm]
  rfl

/-- Witness for C3 at `b"F 14074000"`. -/
theorem hamlib_decode_first_match_wins_witness :
    decodeFamily "hamlib" (strBytes "F 14074000") = "SET FREQ: 14074000" :=
  (hamlib_decode_first_match_wins (strBytes "F 14074000") ("F 14074000".data) "SET FREQ"
    [("14074000".data)] (by decide) (by decide)).2.1

/-- Claim C4: the fallback laws of `decode` for the "hamlib" family — a
chunk that is not valid UTF-8 yields `"<BINARY: {n} bytes>"` with `n` the
byte length; a chunk whose stripped text is empty yields `"<EMPTY>"`; a
stripped text of more than six characters consisting solely of digits and
matching no rule yields `"DATA: {text} Hz"`; any other text matching no
rule yields `"RAW: {text}"`. -/
theorem hamlib_decode_fallback_laws :
    (∀ data : List Nat, utf8Decode? data = none →
       decodeFamily "hamlib" data = "<BINARY: " ++ toString data.length ++ " bytes>") ∧
    (∀ (data : List Nat) (cs : List Char), utf8Decode? data = some cs → pyStrip cs = [] →
       decodeFamily "hamlib" data = "<EMPTY>") ∧
    (∀ (data : List Nat) (cs : List Char), utf8Decode? data = some cs →
       findMatch PATTERNS (pyStrip cs) = none → (pyStrip cs).all pyStrIsDigit = true →
       6 < (pyStrip cs).length →
       decodeFamily "hamlib" data = "DATA: " ++ String.mk (pyStrip cs) ++ " Hz") ∧
    (∀ (data : List Nat) (cs : List Char), utf8Decode? data = some cs → pyStrip cs ≠ [] →
       findMatch PATTERNS (pyStrip cs) = none →
       ((pyStrip cs).all pyStrIsDigit && decide (6 < (pyStrip cs).length)) = false →
       decodeFamily "hamlib" data = "RAW: " ++ String.mk (pyStrip cs)) := by
  refine ⟨fun data h => ?_, fun data cs h hs => ?_, fun data cs h hm hd hl => ?_,
    fun data cs h hne hm hb => ?_⟩
  · rw [decodeFamily_hamlib, decode_of_utf8_none h]
  · rw [decodeFamily_hamlib, decode_of_utf8_some h, hs]
    rfl
  · have hne : pyStrip cs ≠ [] := by
      intro hnil
      rw [hnil] at hl
      exact absurd hl (by decide)
    rw [decodeFamily_hamlib, decode_of_utf8_some h, decodeText_of_nomatch hne hm,
      if_pos (by rw [hd]; simpa using hl)]
  · rw [decodeFamily_hamlib, decode_of_utf8_some h, decodeText_of_nomatch hne hm,
      if_neg (by rw [hb]; exact Bool.false_ne_true)]

/-- Witness for C4 at the invalid-UTF-8 chunk `bytes([0xff, 0xfe, 0xfd])`. -/
theorem hamlib_decode_fallback_laws_witness :
    decodeFamily "hamlib" [0xff, 0xfe, 0xfd] = "<BINARY: 3 bytes>" :=
  hamlib_decode_fallback_laws.1 [0xff, 0xfe, 0xfd] (by decide)

/-- Claim C9: the Hamlib get-command rules match on a single-character
prefix, not a complete command — every stripped text beginning with
lowercase `f` (optionally preceded by `+`) decodes to bare `"GET FREQ"`
(the SET FREQ rule requires an uppercase `F`, so such a text never matches
it), every text beginning with lowercase `m` to `"GET MODE"`, every text
beginning with lowercase `t` to `"GET PTT"`; in particular
`decode("hamlib", b"foo") = "GET FREQ"`. -/
theorem hamlib_get_rules_single_char_prefix :
    (∀ (data : List Nat) (cs rest : List Char), utf8Decode? data = some cs →
       pyStrip cs = 'f' :: rest ∨ pyStrip cs = '+' :: 'f' :: rest →
       decodeFamily "hamlib" data = "GET FREQ") ∧
    (∀ (data : List Nat) (cs rest : List Char), utf8Decode? data = some cs →
       pyStrip cs = 'm' :: rest ∨ pyStrip cs = '+' :: 'm' :: rest →
       decodeFamily "hamlib" data = "GET MODE") ∧
    (∀ (data : List Nat) (cs rest : List Char), utf8Decode? data = some cs →
       pyStrip cs = 't' :: rest ∨ pyStrip cs = '+' :: 't' :: rest →
       decodeFamily "hamlib" data = "GET PTT") ∧
    decodeFamily "hamlib" (strBytes "foo") = "GET FREQ" := by
  refine ⟨fun data cs rest hdec hpre => ?_, fun data cs rest hdec hpre => ?_,
    fun data cs rest hdec hpre => ?_, by decide⟩ <;>
    rw [decodeFamily_hamlib, decode_of_utf8_some hdec] <;>
    rcases hpre with hp | hp <;> rw [hp] <;> rfl

/-- Witness for C9 at `b"foo"`. -/
theorem hamlib_get_rules_single_char_prefix_witness :
    decodeFamily "hamlib" (strBytes "foo") = "GET FREQ" :=
  hamlib_get_rules_single_char_prefix.1 (strBytes "foo") ("foo".data) ("oo".data)
    (by decide) (Or.inl (by decide))

/-- Appending to a deque with positive capacity keeps the new element as the
newest (last) entry. -/
theorem dequeAppend_getLast? (cap : Nat) (log : List PacketEvent) (e : PacketEvent)
    (hcap : 1 ≤ cap) : (dequeAppend cap log e).getLast? = some e := by
  unfold dequeAppend
  have hle : (log ++ [e]).length - cap ≤ log.length := by
    have h1 : (log ++ [e]).length = log.length + 1 := by simp
    omega
  rw [List.drop_append_of_le_length hle, List.getLast?_concat]

/-- Claim C6: `StateManager.log_packet` on a listen port with no registered
config returns with no effect at all; on a registered port it appends
exactly one `PacketEvent` — carrying the config's name, the direction, the
connection id and the protocol-dispatched gloss — to the bounded log (as its
newest entry) and then broadcasts that same event, leaving the proxy table
untouched. -/
theorem log_packet_silent_drop_or_single_append (s : SMState) (port : Nat) (dir : String)
    (data : List Nat) (cid uuid : String) (now : Int) :
    (dictGet s.active_proxies port = none → log_packet s port dir data cid uuid now = s) ∧
    (∀ cfg, dictGet s.active_proxies port = some cfg →
       ∃ ev : PacketEvent,
         ev.proxy_name = cfg.name ∧ ev.direction = dir ∧ ev.connection_id = cid ∧
         ev.semantic = decodeFamily cfg.protocol data ∧
         (log_packet s port dir data cid uuid now).packet_log =
           dequeAppend PACKET_LOG_CAP s.packet_log ev ∧
         (log_packet s port dir data cid uuid now).packet_log.getLast? = some ev ∧
         (log_packet s port dir data cid uuid now).subscribers =
           broadcast s.subscribers (.packet ev) ∧
         (log_packet s port dir data cid uuid now).active_proxies = s.active_proxies) := by
  constructor
  · intro h
    unfold log_packet
    rw [h]
  · intro cfg h
    have hpl : (log_packet s port dir data cid uuid now).packet_log =
        dequeAppend PACKET_LOG_CAP s.packet_log
          { id := uuid, proxy_name := cfg.name, direction := dir,
            data_hex := bytesHex data, data_str := String.mk (utf8DecodeReplace data),
            semantic := decodeFamily cfg.protocol data, timestamp := now,
            connection_id := cid } := by
      unfold log_packet
      rw [h]
    have hsub : (log_packet s port dir data cid uuid now).subscribers =
        broadcast s.subscribers (.packet
          { id := uuid, proxy_name := cfg.name, direction := dir,
            data_hex := bytesHex data, data_str := String.mk (utf8DecodeReplace data),
            semantic := decodeFamily cfg.protocol data, timestamp := now,
            connection_id := cid }) := by
      unfold log_packet
      rw [h]
    have hap : (log_packet s port dir data cid uuid now).active_proxies =
        s.active_proxies := by
      unfold log_packet
      rw [h]
    refine ⟨{ id := uuid, proxy_name := cfg.name, direction := dir,
              data_hex := bytesHex data, data_str := String.mk (utf8DecodeReplace data),
              semantic := decodeFamily cfg.protocol data, timestamp := now,
              connection_id := cid }, rfl, rfl, rfl, rfl, hpl, ?_, hsub, hap⟩
    rw [hpl]
    exact dequeAppend_getLast? PACKET_LOG_CAP s.packet_log _ (by decide)

/-- Witness for C6: on a state with no registered proxies the call is a
no-op. -/
theorem log_packet_silent_drop_witness :
    log_packet { packet_log := [], subscribers := [], active_proxies := [] }
        9000 "TX" [] "c1" "u1" 0 =
      { packet_log := [], subscribers := [], active_proxies := [] } :=
  (log_packet_silent_drop_or_single_append
    { packet_log := [], subscribers := [], active_proxies := [] }
    9000 "TX" [] "c1" "u1" 0).1 (by decide)

/-- Claim C7: `StateManager.broadcast` is a total function (the only
exception `put_nowait` can raise, `QueueFull`, is caught) that preserves the
subscriber list's length and treats each subscriber independently: the
queue at position `i` of the result depends only on the queue that was at
position `i` — it gains the serialized event at its tail if it had free
capacity and is left unchanged (the event dropped) if it was full. -/
theorem broadcast_independent_best_effort (subs : List Queue) (event : EventData)
    (i : Nat) (q : Queue) (hq : subs[i]? = some q) :
    (broadcast subs event).length = subs.length ∧
    (broadcast subs event)[i]? =
      some (if q.items.length < q.cap then { q with items := q.items ++ [event] } else q) := by
  constructor
  · simp [broadcast]
  · rw [broadcast, List.getElem?_map, hq]
    rfl

/-- Witness for C7: a single empty subscriber queue of capacity 100
receives the event. -/
theorem broadcast_independent_best_effort_witness :
    (broadcast [{ cap := 100, items := [] }]
        (.status { local_port := 1, status := "online", error_msg := none }))[0]? =
      some { cap := 100,
             items := [.status { local_port := 1, status := "online", error_msg := none }] } := by
  have h := (broadcast_independent_best_effort [{ cap := 100, items := [] }]
    (.status { local_port := 1, status := "online", error_msg := none })
    0 { cap := 100, items := [] } (by decide)).2
  rw [h]
  rfl

/-- Claim C5: `_check_proxy_health` broadcasts a `StatusEvent` exactly when
the probed status or the probe error text differs from the values recorded
in the relay's spec: on a difference the spec is updated and the transition
event is broadcast once; on an unchanged outcome nothing happens at all;
repeating the check with the same outcome never emits a second event
(so one transition puts exactly one `StatusEvent` on a fresh subscriber
queue). -/
theorem status_event_iff_state_change (c : ProxyConfig) (subs : List Queue)
    (o : ProbeOutcome) :
    (c.status ≠ probeStatus o ∨ c.error_msg ≠ probeErr o →
       check_proxy_health c subs o =
         ({ c with status := probeStatus o, error_msg := probeErr o },
          broadcast subs (.status { local_port := c.local_port, status := probeStatus o,
                                    error_msg := probeErr o }))) ∧
    (c.status = probeStatus o → c.error_msg = probeErr o →
       check_proxy_health c subs o = (c, subs)) ∧
    (∀ subs' : List Queue,
       check_proxy_health (check_proxy_health c subs o).1 subs' o =
         ((check_proxy_health c subs o).1, subs')) ∧
    (c.status ≠ probeStatus o ∨ c.error_msg ≠ probeErr o →
       (check_proxy_health c [{ cap := 100, items := [] }] o).2 =
         [{ cap := 100,
            items := [.status { local_port := c.local_port, status := probeStatus o,
                                error_msg := probeErr o }] }]) := by
  have hchange : c.status ≠ probeStatus o ∨ c.error_msg ≠ probeErr o →
      check_proxy_health c subs o =
        ({ c with status := probeStatus o, error_msg := probeErr o },
         broadcast subs (.status { local_port := c.local_port, status := probeStatus o,
                                   error_msg := probeErr o })) := by
    intro h
    rw [check_proxy_health, if_pos h]
  have hsteady : ∀ subs'' : List Queue, c.status = probeStatus o → c.error_msg = probeErr o →
      check_proxy_health c subs'' o = (c, subs'') := by
    intro subs'' h1 h2
    rw [check_proxy_health, if_neg (fun hor => hor.elim (fun ha => ha h1) (fun hb => hb h2))]
  refine ⟨hchange, hsteady subs, fun subs' => ?_, fun h => ?_⟩
  · by_cases h1 : c.status = probeStatus o ∧ c.error_msg = probeErr o
    · rw [hsteady subs h1.1 h1.2]
      exact hsteady subs' h1.1 h1.2
    · have h' : c.status ≠ probeStatus o ∨ c.error_msg ≠ probeErr o := by
        by_contra hcon
        push_neg at hcon
        exact h1 ⟨hcon.1, hcon.2⟩
      rw [hchange h']
      rw [check_proxy_health, if_neg (fun hor => hor.elim (fun ha => ha rfl) (fun hb => hb rfl))]
  · rw [check_proxy_health, if_pos h]
    rfl

/-- Witness for C5: a fresh relay (status `"unknown"`) probed offline emits
the transition event once onto a fresh capacity-100 queue. -/
theorem status_event_iff_state_change_witness :
    (check_proxy_health
        { local_port := 4532, target_host := "radio.local", target_port := 4532,
          name := "rig" }
        [{ cap := 100, items := [] }] (.offline "connection refused")).2 =
      [{ cap := 100,
         items := [.status { local_port := 4532, status := "offline",
                             error_msg := some "connection refused" }] }] :=
  (status_event_iff_state_change
    { local_port := 4532, target_host := "radio.local", target_port := 4532, name := "rig" }
    [{ cap := 100, items := [] }] (.offline "connection refused")).2.2.2
    (Or.inl (by decide))

/-- Claim C1: `add_proxy` on a listen port already owned by a live proxy
always fails — the listener bind raises the address-in-use error before any
registration — with the engine and state-manager state (live-proxy list,
RelaySpec table, config fields) exactly as before the call; it never
returns success and never replaces or mutates the existing relay's spec. -/
theorem add_proxy_port_in_use_fails (s : EngineState) (lp : Nat) (th : String)
    (tp : Nat) (nm proto : String) (h : ∃ p ∈ s.proxies, p.local_port = lp) :
    add_proxy s lp th tp nm proto = .exn s (addrInUseMsg lp) ∧
    ∀ s' msg, add_proxy s lp th tp nm proto ≠ .ok s' msg := by
  have hb : s.proxies.any (fun p => p.local_port = lp) = true := by
    rcases h with ⟨p, hp, he⟩
    exact List.any_eq_true.2 ⟨p, hp, by simp [he]⟩
  have heq : add_proxy s lp th tp nm proto = .exn s (addrInUseMsg lp) := by
    rw [add_proxy, if_pos hb]
  exact ⟨heq, fun s' msg hok => by rw [heq] at hok; exact PyResult.noConfusion hok⟩

/-- Witness for C1: adding on port 9000 while a live proxy owns 9000
fails and leaves the state untouched. -/
theorem add_proxy_port_in_use_fails_witness :
    add_proxy
        { proxies := [{ local_port := 9000, target_host := "localhost",
                        target_port := 4532, name := "rig" }],
          sm := { packet_log := [], subscribers := [],
                  active_proxies := [(9000, { local_port := 9000, target_host := "localhost",
                                              target_port := 4532, name := "rig" })] } }
        9000 "otherhost" 5000 "clone" "raw" =
      .exn
        { proxies := [{ local_port := 9000, target_host := "localhost",
                        target_port := 4532, name := "rig" }],
          sm := { packet_log := [], subscribers := [],
                  active_proxies := [(9000, { local_port := 9000, target_host := "localhost",
                                              target_port := 4532, name := "rig" })] } }
        (addrInUseMsg 9000) :=
  (add_proxy_port_in_use_fails
    { proxies := [{ local_port := 9000, target_host := "localhost",
                    target_port := 4532, name := "rig" }],
      sm := { packet_log := [], subscribers := [],
              active_proxies := [(9000, { local_port := 9000, target_host := "localhost",
                                          target_port := 4532, name := "rig" })] } }
    9000 "otherhost" 5000 "clone" "raw"
    ⟨{ local_port := 9000, target_host := "localhost", target_port := 4532, name := "rig" },
      by decide, rfl⟩).1

/-- If no live proxy owns the port, the removal loop finds nothing. -/
theorem removeFirst_eq_none {l : List ProxyConfig} {port : Nat}
    (h : ∀ p ∈ l, p.local_port ≠ port) : removeFirst l port = none := by
  induction l with
  | nil => rfl
  | cons p rest ih =>
    unfold removeFirst
    rw [if_neg (h p (List.mem_cons_self p rest)), ih (fun q hq => h q (List.mem_cons_of_mem p hq))]
    rfl

/-- After removing the proxy on `port` from a list with pairwise-distinct
listen ports, no remaining proxy owns `port`. -/
theorem removeFirst_some_rest_free {l : List ProxyConfig} {port : Nat}
    {rest : List ProxyConfig} (h : removeFirst l port = some rest)
    (hnd : (l.map (fun p => p.local_port)).Nodup) : ∀ p ∈ rest, p.local_port ≠ port := by
  induction l generalizing rest with
  | nil => exact absurd h (by simp [removeFirst])
  | cons q tl ih =>
    rw [removeFirst] at h
    by_cases hq : q.local_port = port
    · rw [if_pos hq] at h
      injection h with h'
      subst h'
      intro p hp hpp
      have : q.local_port ∈ tl.map (fun p => p.local_port) := by
        rw [hq, ← hpp]
        exact List.mem_map_of_mem _ hp
      exact (List.nodup_cons.1 hnd).1 this
    · rw [if_neg hq] at h
      cases hrf : removeFirst tl port with
      | none => rw [hrf] at h; exact absurd h (by simp)
      | some rest' =>
        rw [hrf] at h
        rw [show Option.map (fun l => q :: l) (some rest') = some (q :: rest') from rfl] at h
        injection h with h
        subst h
        intro p hp
        rcases List.mem_cons.1 hp with hpq | hptl
        · rw [hpq]; exact hq
        · exact ih hrf (List.nodup_cons.1 hnd).2 p hptl

/-- Claim C8: `remove_proxy` on a port with no live proxy raises the
not-found `ValueError` and leaves the whole state unchanged; hence removing
the same port twice never succeeds twice — with the live ports pairwise
distinct (as the bind uniqueness guarantees), the second call always fails
not-found. -/
theorem remove_proxy_not_found_idempotent (s : EngineState) (port : Nat) :
    ((∀ p ∈ s.proxies, p.local_port ≠ port) →
       remove_proxy s port = .exn s ("No proxy found on port " ++ toString port)) ∧
    (∀ s' msg, remove_proxy s port = .ok s' msg →
       (s.proxies.map (fun p => p.local_port)).Nodup →
       remove_proxy s' port = .exn s' ("No proxy found on port " ++ toString port)) := by
  constructor
  · intro h
    rw [remove_proxy, removeFirst_eq_none h]
  · intro s' msg hok hnd
    rw [remove_proxy] at hok
    cases hrf : removeFirst s.proxies port with
    | none => rw [hrf] at hok; exact PyResult.noConfusion hok
    | some rest =>
      rw [hrf] at hok
      injection hok with h1 h2
      have hfree : ∀ p ∈ rest, p.local_port ≠ port := removeFirst_some_rest_free hrf hnd
      have hproxies : s'.proxies = rest := by rw [← h1]
      rw [remove_proxy, hproxies, removeFirst_eq_none hfree]

/-- Witness for C8: removing from an engine with no proxies fails
not-found with the state untouched. -/
theorem remove_proxy_not_found_idempotent_witness :
    remove_proxy { proxies := [], sm := { packet_log := [], subscribers := [],
                                          active_proxies := [] } } 9000 =
      .exn { proxies := [], sm := { packet_log := [], subscribers := [],
                                    active_proxies := [] } }
        ("No proxy found on port " ++ toString 9000) :=
  (remove_proxy_not_found_idempotent
    { proxies := [], sm := { packet_log := [], subscribers := [], active_proxies := [] } }
    9000).1 (by decide)

/-- The last `n` entries of a list in their original (oldest-first) order —
the "window" the spec describes for `recent(limit, ...)`. -/
def lastN (l : List PacketEvent) (n : Nat) : List PacketEvent :=
  (l.reverse.take n).reverse

/-- `drop (length - n)` is the last-`n` window. -/
theorem drop_length_sub_eq_lastN (l : List PacketEvent) (n : Nat) :
    l.drop (l.length - n) = lastN l n := by
  rw [lastN, List.take_reverse, List.reverse_reverse]

/-- A concrete `PacketEvent` for counterexamples and witnesses. -/
def samplePacketEvent : PacketEvent :=
  { id := "e1", proxy_name := "rig", direction := "TX", data_hex := "48",
    data_str := "H", semantic := "", timestamp := 0, connection_id := "c1" }

/-- Counterexample for C2, refuting both universal parts of the claim as
stated: (i) at `limit = 0` the slice `log[-limit:]` is `log[0:]`, the
whole log — on a one-event log `get_history` returns one entry, more than
`limit = 0`; (ii) `if proxy_name:` is false for the empty string, so a
given empty-string relay-name filter is not applied before truncation: the
call returns an event whose relay name differs from the filter instead of
the empty filtered list. -/
theorem recent_events_original_claim_counterexample :
    (¬ (∀ (log : List PacketEvent) (limit : Int),
          ((get_history log limit none).length : Int) ≤ limit)) ∧
    get_history [samplePacketEvent] 10 (some "") = [samplePacketEvent] ∧
    samplePacketEvent.proxy_name ≠ "" := by
  refine ⟨fun h => absurd (h [samplePacketEvent] 0) (by decide), by decide, by decide⟩

/-- Claim C2 (amended as the counterexample forces: positive limits, and
an empty-string filter — which `if proxy_name:` treats as absent — is
ignored): for every limit ≥ 1, `recentEvents` — both `GET /api/history`
and `list_traffic_history` — returns at most `limit` entries, namely
exactly the last-`limit` window of the (optionally name-filtered) retained
log in oldest-first order; a non-empty relay-name filter is applied to the
whole log before truncation, an empty-string filter leaves the log
unfiltered, and no returned entry lies outside the retained log. -/
theorem recent_events_window_of_pos_limit (log : List PacketEvent) (limit : Int)
    (filt : Option String) (hpos : 1 ≤ limit) :
    ((get_history log limit filt).length : Int) ≤ limit ∧
    get_history log limit filt = lastN (applyNameFilter filt log) limit.toNat ∧
    (∀ e ∈ get_history log limit filt, e ∈ applyNameFilter filt log) ∧
    (∀ nm, filt = some nm → nm ≠ "" →
       get_history log limit filt =
         lastN (log.filter (fun h => h.proxy_name = nm)) limit.toNat) ∧
    (filt = some "" → get_history log limit filt = lastN log limit.toNat) ∧
    ((list_traffic_history log limit).length : Int) ≤ limit ∧
    list_traffic_history log limit = lastN log limit.toNat := by
  have hpt : ∀ l : List PacketEvent, pyTail l limit = lastN l limit.toNat := by
    intro l
    rw [pyTail, if_pos (by omega : (0 : Int) < limit), drop_length_sub_eq_lastN]
  have hlen : ∀ l : List PacketEvent, ((lastN l limit.toNat).length : Int) ≤ limit := by
    intro l
    have h1 : (lastN l limit.toNat).length ≤ limit.toNat := by
      rw [lastN, List.length_reverse]
      exact (List.length_take _ _).trans_le (Nat.min_le_left _ _)
    have h2 : (limit.toNat : Int) = limit := Int.toNat_of_nonneg (by omega)
    omega
  refine ⟨?_, ?_, ?_, ?_, ?_, ?_, ?_⟩
  · rw [get_history, hpt]
    exact hlen _
  · rw [get_history, hpt]
  · intro e he
    rw [get_history, pyTail] at he
    split at he
    · exact List.drop_subset _ _ he
    · exact List.drop_subset _ _ he
  · intro nm hfilt hne
    rw [get_history, hpt, hfilt, applyNameFilter, if_neg hne]
  · intro hfilt
    rw [get_history, hpt, hfilt, applyNameFilter, if_pos rfl]
  · rw [list_traffic_history, hpt]
    exact hlen _
  · rw [list_traffic_history, hpt]

/-- Witness for C2 (amended): one event, limit 1. -/
theorem recent_events_window_of_pos_limit_witness :
    ((get_history [samplePacketEvent] 1 none).length : Int) ≤ 1 :=
  (recent_events_window_of_pos_limit [samplePacketEvent] 1 none (by decide)).1

/-- Claim C10: at `limit = 0` both history readers return every retained
entry of the log rather than an empty sequence (`log[-0:]` is the whole
log), and the deque retention itself keeps the log within its capacity of
2000 entries. -/
theorem history_limit_zero_returns_whole_log :
    (∀ log : List PacketEvent, get_history log 0 none = log) ∧
    (∀ log : List PacketEvent, list_traffic_history log 0 = log) ∧
    (∀ (log : List PacketEvent) (e : PacketEvent), log.length ≤ PACKET_LOG_CAP →
       (dequeAppend PACKET_LOG_CAP log e).length ≤ PACKET_LOG_CAP) := by
  refine ⟨fun log => ?_, fun log => ?_, fun log e h => ?_⟩
  · rw [get_history, applyNameFilter, pyTail, if_neg (by omega)]
    rfl
  · rw [list_traffic_history, pyTail, if_neg (by omega)]
    rfl
  · rw [dequeAppend]
    simp only [List.length_drop, List.length_append, List.length_singleton]
    unfold PACKET_LOG_CAP at h ⊢
    omega

/-- Witness for C10: the capacity-retention conjunct at a concrete log. -/
theorem history_limit_zero_returns_whole_log_witness :
    (dequeAppend PACKET_LOG_CAP [] samplePacketEvent).length ≤ PACKET_LOG_CAP :=
  history_limit_zero_returns_whole_log.2.2 [] samplePacketEvent (by decide)

end Netmind
